import Mathlib

/-!
# Verification of the tunnel client agent

Shallow embedding of the client-side agent of the HTTP reverse-tunneling
service (`src/services/http-proxy.service.ts`,
`src/services/message-handler.service.ts`, `src/socketIO/socket-handler.ts`,
`src/utils/utils.ts`), with theorems settling the specification claims.

Header maps (TypeScript `Record<string, string>`) are modelled as association
lists of key/value pairs; byte buffers as lists of naturals `< 256`; thrown
JavaScript errors as the `.error` case of `Except String`, carrying the
error's message.
-/

namespace Tunnel

/-- `true` iff `pat` is a prefix of `s` (on character lists). -/
def listStartsWith : List Char → List Char → Bool
  | _, [] => true
  | [], _ :: _ => false
  | a :: as, b :: bs => a == b && listStartsWith as bs

/-- `true` iff `pat` occurs as a contiguous run inside `s`. -/
def listContainsSub (s pat : List Char) : Bool :=
  match s with
  | [] => listStartsWith [] pat
  | _ :: rest => listStartsWith s pat || listContainsSub rest pat

/-- `true` iff `pat` occurs as a contiguous substring of `s`
(JS `s.includes(pat)`, or a regex test against a literal pattern). -/
def strContains (s pat : String) : Bool :=
  listContainsSub s.data pat.data

/-- `true` iff `pre` is a prefix of `s` (JS `s.startsWith(pre)`, an
anchored `^…` regex). -/
def strStartsWith (s pre : String) : Bool :=
  listStartsWith s.data pre.data

/-- Lowercase an ASCII letter (the ASCII fragment of JS
`String.prototype.toLowerCase`, which is all that HTTP header names
exercise). -/
def toLowerChar (c : Char) : Char :=
  if 'A' ≤ c ∧ c ≤ 'Z' then Char.ofNat (c.toNat + 32) else c

/-- Lowercase a string (JS `key.toLowerCase()` on ASCII text). -/
def strToLower (s : String) : String :=
  String.mk (s.data.map toLowerChar)

/-- Header maps `Record<string, string | string[]>`, modelled as association
lists (values flattened to plain strings; the claims only depend on keys and
on exact-key lookup). -/
abbrev Headers := List (String × String)

/-- JS exact-property lookup `headers[key]`: the value at `key`, or
`none` when the property is absent (`undefined`). -/
def lookupHeader (hs : Headers) (key : String) : Option String :=
  (hs.find? (fun kv => kv.1 == key)).map (·.2)

/-! ## HTTP forwarder — `src/services/http-proxy.service.ts` -/

/-- `ProxyRequest` of `src/interfaces/http-proxy-interface.ts`. -/
structure ProxyRequest where
  method : String
  path : String
  query : String
  headers : Headers
  body : List Nat
deriving Repr, DecidableEq

/-- `ProxyResponse` of `src/interfaces/http-proxy-interface.ts`. -/
structure ProxyResponse where
  statusCode : Nat
  statusMessage : String
  headers : Headers
  body : List Nat
deriving Repr, DecidableEq

/-- The error `code` of an axios transport failure. -/
inductive AxiosCode where
  | ECONNREFUSED
  | ETIMEDOUT
  | ECONNABORTED
  | otherCode
deriving Repr, DecidableEq

/-- What the attempted HTTP call to the local service does: it resolves
with some HTTP response (any status code is accepted,
`validateStatus: () => true`), rejects with an axios error carrying a
code and a message, or throws a non-axios error with a message. -/
inductive LocalOutcome where
  | success (status : Nat) (statusText : String) (headers : Headers)
      (body : List Nat)
  | axiosError (code : AxiosCode) (msg : String)
  | otherError (msg : String)
deriving Repr, DecidableEq

/-- The header names removed by `HttpProxy.filterHeaders`
(`excludeHeaders`, http-proxy.service.ts lines 65-70). -/
def excludeHeaders : List String :=
  ["host", "connection", "transfer-encoding", "content-length"]

/-- `HttpProxy.filterHeaders` (http-proxy.service.ts lines 60-79): keep an
entry iff the lowercase of its key is not in `excludeHeaders`. -/
def filterHeaders (hs : Headers) : Headers :=
  hs.filter (fun kv => !(excludeHeaders.contains (strToLower kv.1)))

/-- The header map handed to axios for the outbound request to the local
service (`headers: this.filterHeaders(request.headers)`,
http-proxy.service.ts line 30). -/
def outboundHeaders (req : ProxyRequest) : Headers :=
  filterHeaders req.headers

/-- `HttpProxy.forwardRequest` (http-proxy.service.ts lines 21-58), as a
function of the request and of what the local HTTP call does.
On success it returns
`{statusCode: response.status, statusMessage: response.statusText,
headers: this.filterHeaders(request.headers), body: response.data}` —
note line 40 reuses the (filtered) request headers.
On failure it rethrows: ECONNREFUSED becomes
"Cannot connect to local service on port …", ETIMEDOUT/ECONNABORTED become
"Request to local service timed out", anything else is surfaced as-is. -/
def forwardRequest (localPort : Nat) (req : ProxyRequest)
    (outcome : LocalOutcome) : Except String ProxyResponse :=
  match outcome with
  | .success st stx _hs b =>
      .ok { statusCode := st, statusMessage := stx,
            headers := filterHeaders req.headers, body := b }
  | .axiosError .ECONNREFUSED _ =>
      .error ("Cannot connect to local service on port " ++
        toString localPort ++ ". Is your service running?")
  | .axiosError .ETIMEDOUT _ => .error "Request to local service timed out"
  | .axiosError .ECONNABORTED _ => .error "Request to local service timed out"
  | .axiosError .otherCode msg => .error msg
  | .otherError msg => .error msg

/-! ## Public-URL normalizer — `fixPublicUrl`, `src/utils/utils.ts` lines 81-110 -/

/-- The TLD alternatives of the regex
`/\.(com|net|org|io|dev|app|co|fit)\d+/g`, in the regex's alternation
order (ordered alternation: the first alternative that lets the whole
pattern match wins). -/
def tlds : List String := ["com", "net", "org", "io", "dev", "app", "co", "fit"]

/-- Try to match `(com|net|org|io|dev|app|co|fit)\d+` at the head of `cs`
(the text right after a literal dot): the first TLD in alternation order
that is a prefix of `cs` and is immediately followed by a digit.
Returns the matched TLD and the total number of characters consumed
(TLD plus the maximal digit run). -/
def tldMatchAux : List String → List Char → Option (String × Nat)
  | [], _ => none
  | t :: ts, cs =>
      let n := t.data.length
      if listStartsWith cs t.data then
        match cs.drop n with
        | c :: _ =>
            if c.isDigit then
              some (t, n + ((cs.drop n).takeWhile Char.isDigit).length)
            else tldMatchAux ts cs
        | [] => tldMatchAux ts cs
      else tldMatchAux ts cs

/-- Global replace `\.(com|net|org|io|dev|app|co|fit)\d+` with `.$1`:
left-to-right non-overlapping matches on the original text, each match
replaced by the dot and the captured TLD with the fused digits dropped
(utils.ts line 92). The fuel argument (at least the text length; each
step consumes at least one character) makes the recursion structural. -/
def collapseTldGo : Nat → List Char → List Char
  | 0, _ => []
  | _, [] => []
  | fuel + 1, c :: rest =>
      if c == '.' then
        match tldMatchAux tlds rest with
        | some (t, k) => '.' :: (t.data ++ collapseTldGo fuel (rest.drop k))
        | none => c :: collapseTldGo fuel rest
      else c :: collapseTldGo fuel rest

/-- The global TLD-digit collapse on a whole text. -/
def collapseTldPortsAux (cs : List Char) : List Char :=
  collapseTldGo cs.length cs

/-- Single replace of `:(\d+)$` with the empty string: the pattern matches
iff the text ends in a nonempty digit run immediately preceded by a colon,
and the match (colon and digits) is removed (utils.ts line 94). -/
def stripTrailingPort (cs : List Char) : List Char :=
  let revd := cs.reverse
  let ds := revd.takeWhile Char.isDigit
  if ds.isEmpty then cs
  else
    match revd.drop ds.length with
    | ':' :: before => before.reverse
    | _ => cs

/-- A character allowed inside the `[^:/]+` host group. -/
def isHostChar (c : Char) : Bool := c != ':' && c != '/'

/-- `true` iff the list starts with a `[^:/]` character. -/
def firstIsHost : List Char → Bool
  | [] => false
  | c :: _ => isHostChar c

/-- `serverUrl.match(/(?:wss?:\/\/)?([^:\/]+)/)?.[1]` (utils.ts line 97):
the first capture group of the leftmost match. At each position the
engine first tries the greedy optional prefix `wss://`, then `ws://`,
then the empty prefix, each followed by a nonempty `[^:/]+` group;
failing all three it advances one character. -/
def serverDomainAux : List Char → Option String
  | [] => none
  | c :: rest =>
      let cs := c :: rest
      if listStartsWith cs "wss://".data && firstIsHost (cs.drop 6) then
        some (String.mk ((cs.drop 6).takeWhile isHostChar))
      else if listStartsWith cs "ws://".data && firstIsHost (cs.drop 5) then
        some (String.mk ((cs.drop 5).takeWhile isHostChar))
      else if isHostChar c then
        some (String.mk (cs.takeWhile isHostChar))
      else
        serverDomainAux rest

/-- Single anchored replace of `^http:\/\/` with `https://`
(utils.ts line 105). -/
def httpsify (s : String) : String :=
  if strStartsWith s "http://" then "https://" ++ String.mk (s.data.drop 7)
  else s

/-- `fixPublicUrl` (utils.ts lines 81-110). The third source parameter is
`options`; only its `serverUrl` field is read, so the embedding takes the
`serverUrl` string directly. The try/catch is dropped: no operation in the
body throws. -/
def fixPublicUrl (url subdomain serverUrl : String) : String :=
  if strContains url "localhost" || strContains url "127.0.0.1" then url
  else
    let fixed1 := String.mk (collapseTldPortsAux url.data)
    let fixed2 := String.mk (stripTrailingPort fixed1.data)
    let fixedUrl :=
      match serverDomainAux serverUrl.data with
      | some d =>
          if d != "" && subdomain != "" && !(strContains fixed2 d) then
            (if strStartsWith serverUrl "https://" then "https://"
             else "http://") ++ subdomain ++ d
          else fixed2
      | none => fixed2
    httpsify fixedUrl

/-! ## Base64 (Node `Buffer.toString('base64')` / `Buffer.from(s,'base64')`) -/

/-- The standard base64 alphabet. -/
def base64Chars : List Char :=
  "ABCDEFGHIJKLMNOPQRSTUVWXYZabcdefghijklmnopqrstuvwxyz0123456789+/".data

/-- The base64 digit with value `n`. -/
def b64c (n : Nat) : Char := base64Chars.getD n 'A'

/-- Standard base64 encoding of a byte list, with `=` padding and no line
wrapping (Node `buf.toString('base64')`). -/
def base64EncodeList : List Nat → List Char
  | [] => []
  | [b1] => [b64c (b1 / 4), b64c (b1 % 4 * 16), '=', '=']
  | [b1, b2] =>
      [b64c (b1 / 4), b64c (b1 % 4 * 16 + b2 / 16), b64c (b2 % 16 * 4), '=']
  | b1 :: b2 :: b3 :: rest =>
      b64c (b1 / 4) :: b64c (b1 % 4 * 16 + b2 / 16) ::
        b64c (b2 % 16 * 4 + b3 / 64) :: b64c (b3 % 64) :: base64EncodeList rest

/-- Base64 encoding as a string. -/
def base64Encode (bs : List Nat) : String := String.mk (base64EncodeList bs)

/-- The bytes of an ASCII string (`Buffer.from(s)`). -/
def strBytes (s : String) : List Nat := s.data.map Char.toNat

/-- The value of a base64 digit, `none` for non-alphabet characters. -/
def b64Val (c : Char) : Option Nat := base64Chars.indexOf? c

/-- Base64 decoding (Node `Buffer.from(s, 'base64')`, which skips
non-alphabet characters including the `=` padding): regroup the sextets
into bytes, dropping a trailing partial byte. -/
def bytesOfSextets : List Nat → List Nat
  | s1 :: s2 :: s3 :: s4 :: rest =>
      (s1 * 4 + s2 / 16) :: (s2 % 16 * 16 + s3 / 4) ::
        (s3 % 4 * 64 + s4) :: bytesOfSextets rest
  | [s1, s2, s3] => [s1 * 4 + s2 / 16, s2 % 16 * 16 + s3 / 4]
  | [s1, s2] => [s1 * 4 + s2 / 16]
  | _ => []

/-- Node-style lenient base64 decode of a string to bytes. -/
def base64Decode (s : String) : List Nat :=
  bytesOfSextets (s.data.filterMap b64Val)

/-! ## Frames and inbound messages — `src/interfaces/protocol.interface.ts` -/

/-- The `metadata` object of a `REQUEST` frame. -/
structure RequestMetadata where
  method : String
  path : String
  query : String
  headers : Headers
deriving Repr, DecidableEq

/-- An inbound `REQUEST` frame (`RequestMessage`). `body` is the base64
encoding of the request body. -/
structure RequestMessage where
  streamId : String
  tunnelId : String
  metadata : RequestMetadata
  body : String
deriving Repr, DecidableEq

/-- The payload of a `REQUEST_LOG` frame (`RequestLogMessage`), without the
sender-stamped `type`/`timestamp`. -/
structure RequestLogFields where
  tunnelId : String
  method : String
  host : String
  path : String
  statusCode : Nat
  responseTime : Nat
  userAgent : Option String
  ipAddress : Option String
  errorMessage : Option String
deriving Repr, DecidableEq

/-- An outbound frame emitted by the agent on the control channel
(`socket.emit('message', …)` or `socket.emit('local_service', …)`),
identified by its `type` tag and payload; the sender-stamped `timestamp`
is not modelled. -/
inductive Frame where
  | connectMsg (token : Option String) (requestedSubdomain : Option String)
      (agentVersion : String) (localPort : Nat) (requestCount : Nat)
  | response (streamId : String) (statusCode : Nat) (statusMessage : String)
      (headers : Headers) (body : String)
  | requestLog (fields : RequestLogFields)
  | heartbeatAck
  | localServicePing (tunnelId : String) (localServiceConnected : Bool)
deriving Repr, DecidableEq

/-- `true` iff the frame is a `RESPONSE`. -/
def isResponseFrame : Frame → Bool
  | .response _ _ _ _ _ => true
  | _ => false

/-- `true` iff the frame is a `REQUEST_LOG`. -/
def isRequestLogFrame : Frame → Bool
  | .requestLog _ => true
  | _ => false

/-! ## Request logging — `sendRequestLog`, `src/utils/utils.ts` lines 31-64 -/

/-- JS `a || b` for an optional string `a` (`undefined` and `""` are
falsy). -/
def jsOr (a : Option String) (b : String) : String :=
  match a with
  | some s => if s == "" then b else s
  | none => b

/-- JS `a || b` for strings (`""` is falsy). -/
def jsOrStr (a b : String) : String := if a == "" then b else a

/-- `sendRequestLog` (utils.ts lines 31-64): returns the list of frames
emitted (zero or one). `if (!tunnelId) return;` drops the log when
`tunnelId` is the empty string. `host` is the falsy-chain
`headers['host'] || publicUrl || 'unknown'`; `userAgent` and `ipAddress`
are exact-key lookups. The socket-null case and the dead try/catch are not
modelled. -/
def sendRequestLog (tunnelId publicUrl : String) (reqMsg : RequestMessage)
    (statusCode responseTime : Nat) (errorMessage : Option String) :
    List Frame :=
  if tunnelId == "" then []
  else
    let headers := reqMsg.metadata.headers
    [Frame.requestLog
      { tunnelId := tunnelId
        method := reqMsg.metadata.method
        host := jsOr (lookupHeader headers "host") (jsOrStr publicUrl "unknown")
        path := reqMsg.metadata.path
        statusCode := statusCode
        responseTime := responseTime
        userAgent := lookupHeader headers "user-agent"
        ipAddress := lookupHeader headers "x-forwarded-for"
        errorMessage := errorMessage }]

/-! ## Request dispatch — `MessageHandlerService.handleRequest`,
`src/services/message-handler.service.ts` lines 87-152 -/

/-- The `ProxyRequest` built from an inbound `REQUEST` frame
(message-handler.service.ts lines 95-101): the metadata fields plus the
base64-decoded body. -/
def toProxyRequest (reqMsg : RequestMessage) : ProxyRequest :=
  { method := reqMsg.metadata.method
    path := reqMsg.metadata.path
    query := reqMsg.metadata.query
    headers := reqMsg.metadata.headers
    body := base64Decode reqMsg.body }

/-- `handleRequest` (message-handler.service.ts lines 87-152): the frames
emitted for one inbound `REQUEST`, as a function of the session's
`tunnelId`/`publicUrl`, the local port, the frame, what the local HTTP
call does, and the elapsed time measured in the `finally` block.

On success the `RESPONSE` carries the forwarder's result fields and the
base64 of its body; on a thrown error a synthesized
`502 Bad Gateway` `RESPONSE` is emitted. The `finally` block always calls
`sendRequestLog` with `!!this.tunnelId ? this.tunnelId : ''` and the outer
`statusCode` (initialized to 502, overwritten on success). The outer
`let errorMessage` is never assigned — the catch block declares a new
shadowing `const errorMessage` for the 502 frame — so the log's
`errorMessage` argument is always `undefined` (`none`). The 10 MiB
size check only logs a console warning and is not modelled. -/
def handleRequest (tunnelId publicUrl : Option String) (localPort : Nat)
    (reqMsg : RequestMessage) (outcome : LocalOutcome)
    (responseTime : Nat) : List Frame :=
  match forwardRequest localPort (toProxyRequest reqMsg) outcome with
  | .ok resp =>
      Frame.response reqMsg.streamId resp.statusCode resp.statusMessage
          resp.headers (base64Encode resp.body)
        :: sendRequestLog (tunnelId.getD "") (publicUrl.getD "") reqMsg
            resp.statusCode responseTime none
  | .error _ =>
      Frame.response reqMsg.streamId 502 "Bad Gateway"
          [("content-type", "text/plain")]
          (base64Encode (strBytes "Error forwarding request to local service"))
        :: sendRequestLog (tunnelId.getD "") (publicUrl.getD "") reqMsg
            502 responseTime none

/-! ## Local-service probe — `pingLocalService` / `sendLocalServicePing`,
`src/services/message-handler.service.ts` lines 221-256 -/

/-- The probe request issued by `pingLocalService`
(message-handler.service.ts lines 225-231). -/
def pingRequest : ProxyRequest :=
  { method := "HEAD", path := "/", query := ""
    headers := [("User-Agent", "Tunnel-Agent-Ping")], body := [] }

/-- The try/catch of `pingLocalService` (lines 224-242): `some b` means a
liveness determination `b` is pushed via `sendLocalServicePing`, `none`
means the error is silently ignored. A resolved call yields `true`. A
thrown `Error` yields `false` iff its message contains `ECONNREFUSED`,
`Cannot connect to local service`, or `ETIMEDOUT`. -/
def pingProbeResult (localPort : Nat) (outcome : LocalOutcome) :
    Option Bool :=
  match forwardRequest localPort pingRequest outcome with
  | .ok _ => some true
  | .error msg =>
      if strContains msg "ECONNREFUSED" ||
          strContains msg "Cannot connect to local service" ||
          strContains msg "ETIMEDOUT" then
        some false
      else none

/-- One probe tick: `pingLocalService` (guard
`if (!this.httpProxy || !this.tunnelId) return;`, line 222) composed with
`sendLocalServicePing` (guard `if (!this.tunnelId || !this.socket) return;`,
line 246), returning the `LOCAL_SERVICE_PING` frames emitted (zero or
one). -/
def pingLocalService (tunnelId : Option String) (localPort : Nat)
    (outcome : LocalOutcome) : List Frame :=
  match tunnelId with
  | none => []
  | some t =>
      if t == "" then []
      else
        match pingProbeResult localPort outcome with
        | some connected => [Frame.localServicePing t connected]
        | none => []

/-! ## Reconnection — `attemptReconnect`,
`src/services/message-handler.service.ts` lines 258-293 -/

/-- What `attemptReconnect` does after a failed `connectFn()` call:
schedule the next attempt after a delay, or exit the process. -/
inductive ReconnectAction where
  | schedule (delayMs : Nat)
  | exitProcess (code : Nat)
deriving Repr, DecidableEq

/-- `const maxRetries = 10` (line 259). -/
def maxRetries : Nat := 10

/-- `const baseDelay = 5000` (line 260). -/
def baseDelay : Nat := 5000

/-- `const maxDelay = 60000` (line 261). -/
def maxDelay : Nat := 60000

/-- The catch branch of `attemptReconnect(retryCount)` (lines 274-292):
when `retryCount < maxRetries - 1 && this.shouldReconnect`, schedule
`attemptReconnect(retryCount + 1)` after
`Math.min(baseDelay * 2 ** retryCount, maxDelay)` ms; otherwise
`process.exit(1)`. -/
def attemptReconnectOnFailure (retryCount : Nat) (shouldReconnect : Bool) :
    ReconnectAction :=
  if retryCount < maxRetries - 1 ∧ shouldReconnect = true then
    .schedule (min (baseDelay * 2 ^ retryCount) maxDelay)
  else
    .exitProcess 1

/-! ## Session state and message dispatch — `src/socketIO/socket-handler.ts`
and `MessageHandlerService` connection handlers -/

/-- `TunnelClientOptions`. -/
structure ClientOptions where
  serverUrl : String
  localPort : Nat
  subdomain : Option String
  token : Option String
  reconnect : Bool
deriving Repr, DecidableEq

/-- The mutable session fields of `MessageHandlerService`
(message-handler.service.ts lines 22-26) relevant to dispatch. -/
structure SessionState where
  isConnected : Bool
  tunnelId : Option String
  subdomain : Option String
  publicUrl : Option String
deriving Repr, DecidableEq

/-- An inbound frame on the `message` event, by `type` tag. -/
inductive InMessage where
  | connect
  | connectAck (tunnelId subdomain publicUrl : String)
  | request (reqMsg : RequestMessage)
  | serverError (code msg : String)
  | unknown (tag : String)
deriving Repr, DecidableEq

/-- `AGENT_VERSION` outside development mode (`src/config.ts`). -/
def agentVersion : String := "1.0.0"

/-- `sendConnectMessage` (utils.ts lines 66-79): the `CONNECT` frame built
from the options, with `requestCount: 0`. -/
def sendConnectMessage (opts : ClientOptions) : Frame :=
  .connectMsg opts.token opts.subdomain agentVersion opts.localPort 0

/-- `MessageHandlerService.handleConnect` (lines 56-60): emit a `CONNECT`
frame iff the session is not connected. -/
def handleConnect (opts : ClientOptions) (st : SessionState) : List Frame :=
  if st.isConnected then [] else [sendConnectMessage opts]

/-- `MessageHandlerService.handleConnectAck` (lines 62-85): store the
identity and the normalized public URL (the banner print and the timer
starts have no frame-level effect). -/
def handleConnectAck (opts : ClientOptions) (st : SessionState)
    (tid sd purl : String) : SessionState :=
  { st with
    tunnelId := some tid
    subdomain := some sd
    publicUrl := some (fixPublicUrl purl sd opts.serverUrl) }

/-- `SocketIOHandler.handleMessage` (socket-handler.ts lines 74-94): route
one decoded inbound message; `REQUEST` frames go to `handleRequest`
(parameterised here by the local call's outcome and elapsed time), `ERROR`
and unknown tags only log. Returns the updated session fields and the
emitted frames. -/
def handleMessage (opts : ClientOptions) (st : SessionState)
    (msg : InMessage) (outcome : LocalOutcome) (responseTime : Nat) :
    SessionState × List Frame :=
  match msg with
  | .connect => (st, handleConnect opts st)
  | .connectAck tid sd purl => (handleConnectAck opts st tid sd purl, [])
  | .request reqMsg =>
      (st, handleRequest st.tunnelId st.publicUrl opts.localPort reqMsg
        outcome responseTime)
  | .serverError _ _ => (st, [])
  | .unknown _ => (st, [])

/-- The result of one `message` event: new session fields, emitted frames,
and whether the pending `connect()` promise was resolved. -/
structure MessageStep where
  state : SessionState
  emitted : List Frame
  resolved : Bool
deriving Repr, DecidableEq

/-- `true` iff the tag is `CONNECT` or `CONNECT_ACK`
(socket-handler.ts lines 41-42). -/
def isConnectKind : InMessage → Bool
  | .connect => true
  | .connectAck _ _ _ => true
  | _ => false

/-- The `message` event listener (socket-handler.ts lines 35-51): dispatch
via `handleMessage`, then — when the message is `CONNECT` or `CONNECT_ACK`
and `getIsConnected()` is still false — set the connected flag and resolve
the pending `connect()` promise. -/
def onMessage (opts : ClientOptions) (st : SessionState) (msg : InMessage)
    (outcome : LocalOutcome) (responseTime : Nat) : MessageStep :=
  let step := handleMessage opts st msg outcome responseTime
  if isConnectKind msg && !step.1.isConnected then
    { state := { step.1 with isConnected := true }, emitted := step.2,
      resolved := true }
  else
    { state := step.1, emitted := step.2, resolved := false }

/-! ## Fixtures and helper lemmas -/

/-- The metadata of the sample `REQUEST` of scenario S2. -/
def sampleMetadata : RequestMetadata where
  method := "GET"
  path := "/x"
  query := "a=1"
  headers := [("host", "demo.tunnl.fit"), ("user-agent", "curl/8")]

/-- The sample `REQUEST` frame of scenario S2. -/
def sampleRequest : RequestMessage where
  streamId := "S"
  tunnelId := "T1"
  metadata := sampleMetadata
  body := ""

/-- `true` iff a `REQUEST_LOG` frame carries no `errorMessage` (non-log
frames pass vacuously). -/
def logHasNoErrorMessage : Frame → Bool
  | .requestLog fields => fields.errorMessage == none
  | _ => true

/-- `sendRequestLog` emits one `REQUEST_LOG` frame when `tunnelId` is
nonempty and none otherwise, and never a `RESPONSE`. -/
theorem sendRequestLog_counts (tid purl : String) (reqMsg : RequestMessage)
    (sc rt : Nat) (em : Option String) :
    (sendRequestLog tid purl reqMsg sc rt em).countP isRequestLogFrame
        = (if tid == "" then 0 else 1) ∧
      (sendRequestLog tid purl reqMsg sc rt em).countP isResponseFrame = 0 := by
  rw [sendRequestLog]
  split <;> simp [isRequestLogFrame, isResponseFrame]

/-! ## Claim theorems -/

/-- C1: the forwarder's returned record is supposed to carry the response's
headers, but `HttpProxy.forwardRequest` (http-proxy.service.ts line 40)
returns `this.filterHeaders(request.headers)` — the request headers — in
their place, and `handleRequest` copies that field into the framed
`RESPONSE` metadata. At a request with headers `x-request: 1` answered by
the local service with headers `x-response: 2`, the forwarder's record and
the emitted `RESPONSE` both carry `x-request: 1`. -/
theorem c1_forwarder_reuses_request_headers :
    forwardRequest 3000
        ⟨"GET", "/x", "", [("x-request", "1")], []⟩
        (.success 200 "OK" [("x-response", "2")] []) =
      .ok ⟨200, "OK", [("x-request", "1")], []⟩ ∧
    ([("x-request", "1")] : Headers) ≠ [("x-response", "2")] ∧
    handleRequest (some "T1") none 3000
        ⟨"S", "T1", ⟨"GET", "/x", "", [("x-request", "1")]⟩, ""⟩
        (.success 200 "OK" [("x-response", "2")] []) 5 =
      [Frame.response "S" 200 "OK" [("x-request", "1")] "",
        Frame.requestLog ⟨"T1", "GET", "unknown", "/x", 200, 5, none, none,
          none⟩] := by
  refine ⟨rfl, by decide, by decide⟩

/-- C2: on scenario S4 (`url = "http://demo.tunnl.fit3000:3000"`,
`subdomain = "demo."`, `serverUrl = "https://tunnl.fit"`) the normalizer
is specified to return `"https://demo.tunnl.fit"`, comparing against the
host part `"tunnl.fit"` of `serverUrl`. The code's extraction regex
`(?:wss?:\/\/)?([^:\/]+)` only strips `ws`/`wss` schemes, so on
`"https://tunnl.fit"` its first match captures `"https"`; the repaired
string `"http://demo.tunnl.fit"` does not contain `"https"`, so the URL is
reconstructed as `"https://" + "demo." + "https"`. -/
theorem c2_normalizer_s4_yields_demo_https :
    serverDomainAux "https://tunnl.fit".data = some "https" ∧
    fixPublicUrl "http://demo.tunnl.fit3000:3000" "demo." "https://tunnl.fit"
      = "https://demo.https" ∧
    fixPublicUrl "http://demo.tunnl.fit3000:3000" "demo." "https://tunnl.fit"
      ≠ "https://demo.tunnl.fit" := by
  refine ⟨by decide, by decide, by decide⟩

/-- C3: a probe that reaches the local service yields a `true` liveness
push and a connection-refused probe a `false` one, but a timed-out probe
emits no `LOCAL_SERVICE_PING` at all: `forwardRequest` rewrites
`ETIMEDOUT`/`ECONNABORTED` to an `Error` whose message
`"Request to local service timed out"` contains none of `ECONNREFUSED`,
`Cannot connect to local service`, `ETIMEDOUT`, so the catch in
`pingLocalService` silently ignores it — against the claim, which requires
`localServiceConnected = false` for timeouts. -/
theorem c3_timeout_probe_emits_no_frame :
    pingProbeResult 3000 (.success 200 "OK" [] []) = some true ∧
    pingProbeResult 3000
      (.axiosError .ECONNREFUSED "connect ECONNREFUSED 127.0.0.1:3000")
      = some false ∧
    pingProbeResult 3000 (.axiosError .ETIMEDOUT "timeout of 0ms exceeded")
      = none ∧
    pingLocalService (some "T1") 3000
      (.axiosError .ETIMEDOUT "timeout of 0ms exceeded") = [] := by
  refine ⟨by decide, by decide, by decide, by decide⟩

/-- C5: within one disconnect episode, the delay scheduled after the
`i`-th consecutive failed reconnection attempt (`i < 9`) is
`min(5000 · 2^i, 60000)` ms, and the 10th consecutive failure
(`retryCount = 9`) schedules nothing and exits the process with code 1. -/
theorem c5_backoff_schedule_and_exit (i : Nat) (h : i < 9) :
    attemptReconnectOnFailure i true
        = .schedule (min (5000 * 2 ^ i) 60000) ∧
      attemptReconnectOnFailure 9 true = .exitProcess 1 := by
  constructor
  · simp [attemptReconnectOnFailure, maxRetries, baseDelay, maxDelay, h]
  · decide

/-- Witness for C5 at `i = 3`: the fourth delay is 40 s. -/
theorem c5_backoff_schedule_and_exit_witness :
    3 < 9 ∧
      (attemptReconnectOnFailure 3 true
          = .schedule (min (5000 * 2 ^ 3) 60000) ∧
        attemptReconnectOnFailure 9 true = .exitProcess 1) :=
  ⟨by decide, c5_backoff_schedule_and_exit 3 (by decide)⟩

/-- C4 counterexample: with the session's `tunnelId` unset, handling a
`REQUEST` emits no `REQUEST_LOG` at all — `handleRequest` passes the
empty string and `sendRequestLog` returns at `if (!tunnelId) return;` —
against the claim that a log with `tunnelId = ""` is emitted. -/
theorem c4_counterexample_no_log_when_tunnel_unset :
    (handleRequest none none 3000 sampleRequest
        (.success 200 "OK" [] (strBytes "hello")) 5).countP isRequestLogFrame
      = 0 := by
  decide

/-- C4 amended: after the `RESPONSE` (successful or synthesized 502) is
handled, exactly one `REQUEST_LOG` frame is emitted when the session's
`tunnelId` is a nonempty string, and none when it is unset or empty. -/
theorem c4_request_log_iff_nonempty_tunnel_id (tunnelId publicUrl : Option String)
    (localPort : Nat) (reqMsg : RequestMessage) (outcome : LocalOutcome)
    (rt : Nat) :
    (handleRequest tunnelId publicUrl localPort reqMsg outcome rt).countP
        isRequestLogFrame
      = (if tunnelId.getD "" == "" then 0 else 1) := by
  rw [handleRequest]
  cases hfr : forwardRequest localPort (toProxyRequest reqMsg) outcome with
  | error e =>
      simp [isRequestLogFrame, (sendRequestLog_counts _ _ _ _ _ _).1]
  | ok resp =>
      simp [isRequestLogFrame, (sendRequestLog_counts _ _ _ _ _ _).1]

/-- C6: whatever the casing of the inbound header keys, the header map
handed to axios for the outbound local request contains no key whose
lowercase form is `host`, `connection`, `transfer-encoding`, or
`content-length`. -/
theorem c6_outbound_headers_drop_excluded (req : ProxyRequest) :
    (outboundHeaders req).all (fun kv =>
        decide (strToLower kv.1 ≠ "host" ∧ strToLower kv.1 ≠ "connection" ∧
          strToLower kv.1 ≠ "transfer-encoding" ∧
          strToLower kv.1 ≠ "content-length")) = true := by
  rw [List.all_eq_true]
  intro kv hmem
  rw [outboundHeaders, filterHeaders] at hmem
  have h2 := (List.mem_filter.mp hmem).2
  rw [Bool.not_eq_true'] at h2
  rw [decide_eq_true_iff]
  refine ⟨?_, ?_, ?_, ?_⟩ <;> intro heq <;> rw [heq] at h2 <;>
    exact absurd h2 (by decide)

/-- C7 counterexample to idempotence: one pass over
`"https://demo.tunnl.fit:1:2"` strips only the last `:2`, a second pass
also strips the `:1`, so normalizing twice differs from normalizing
once. -/
theorem c7_counterexample_not_idempotent :
    fixPublicUrl
        (fixPublicUrl "https://demo.tunnl.fit:1:2" "demo" "https://tunnl.fit")
        "demo" "https://tunnl.fit"
      ≠ fixPublicUrl "https://demo.tunnl.fit:1:2" "demo" "https://tunnl.fit" := by
  decide

/-- C7 amended: the normalizer returns every input containing `localhost`
or `127.0.0.1` unchanged, and is therefore idempotent on such inputs; it
is not idempotent on all inputs (see the counterexample, where a second
pass strips a further trailing port). -/
theorem c7_localhost_unchanged_and_idempotent (url subdomain serverUrl : String)
    (h : strContains url "localhost" = true ∨
      strContains url "127.0.0.1" = true) :
    fixPublicUrl url subdomain serverUrl = url ∧
      fixPublicUrl (fixPublicUrl url subdomain serverUrl) subdomain serverUrl
        = fixPublicUrl url subdomain serverUrl := by
  have h1 : fixPublicUrl url subdomain serverUrl = url := by
    rcases h with h | h <;> simp [fixPublicUrl, h]
  exact ⟨h1, by rw [h1]; exact h1⟩

/-- Witness for C7 amended at `"http://localhost:3000"`. -/
theorem c7_localhost_unchanged_and_idempotent_witness :
    (strContains "http://localhost:3000" "localhost" = true ∨
      strContains "http://localhost:3000" "127.0.0.1" = true) ∧
    (fixPublicUrl "http://localhost:3000" "demo" "https://tunnl.fit"
        = "http://localhost:3000" ∧
      fixPublicUrl
          (fixPublicUrl "http://localhost:3000" "demo" "https://tunnl.fit")
          "demo" "https://tunnl.fit"
        = fixPublicUrl "http://localhost:3000" "demo" "https://tunnl.fit") :=
  ⟨Or.inl (by decide),
    c7_localhost_unchanged_and_idempotent "http://localhost:3000" "demo"
      "https://tunnl.fit" (Or.inl (by decide))⟩

/-- C8: whenever forwarding an inbound `REQUEST` to the local service
throws, exactly one `RESPONSE` frame is emitted, and it carries the
request's `streamId`, status 502, status message `"Bad Gateway"`, headers
`content-type: text/plain`, and body
`base64("Error forwarding request to local service")`. -/
theorem c8_failure_emits_single_502_response (tunnelId publicUrl : Option String)
    (localPort : Nat) (reqMsg : RequestMessage) (outcome : LocalOutcome)
    (rt : Nat) (emsg : String)
    (h : forwardRequest localPort (toProxyRequest reqMsg) outcome
      = .error emsg) :
    Frame.response reqMsg.streamId 502 "Bad Gateway"
        [("content-type", "text/plain")]
        (base64Encode (strBytes "Error forwarding request to local service"))
      ∈ handleRequest tunnelId publicUrl localPort reqMsg outcome rt ∧
    (handleRequest tunnelId publicUrl localPort reqMsg outcome rt).countP
        isResponseFrame = 1 := by
  rw [handleRequest, h]
  refine ⟨List.mem_cons_self _ _, ?_⟩
  simp [isResponseFrame, (sendRequestLog_counts _ _ _ _ _ _).2]

/-- Witness for C8: a connection-refused forward of the sample request. -/
theorem c8_failure_emits_single_502_response_witness :
    forwardRequest 3000 (toProxyRequest sampleRequest)
        (.axiosError .ECONNREFUSED "connect ECONNREFUSED 127.0.0.1:3000")
      = .error
        "Cannot connect to local service on port 3000. Is your service running?" ∧
    (Frame.response sampleRequest.streamId 502 "Bad Gateway"
        [("content-type", "text/plain")]
        (base64Encode (strBytes "Error forwarding request to local service"))
      ∈ handleRequest (some "T1") none 3000 sampleRequest
          (.axiosError .ECONNREFUSED "connect ECONNREFUSED 127.0.0.1:3000") 7 ∧
    (handleRequest (some "T1") none 3000 sampleRequest
        (.axiosError .ECONNREFUSED "connect ECONNREFUSED 127.0.0.1:3000")
        7).countP isResponseFrame = 1) :=
  ⟨rfl,
    c8_failure_emits_single_502_response (some "T1") none 3000 sampleRequest
      (.axiosError .ECONNREFUSED "connect ECONNREFUSED 127.0.0.1:3000") 7 _
      rfl⟩

/-- C9: an inbound `CONNECT` frame (not only `CONNECT_ACK`) received while
the session is not connected makes the listener emit a `CONNECT` frame,
mark the session connected, and resolve the pending `connect()` promise,
while `tunnelId`, `subdomain`, and `publicUrl` keep their previous values
— so the session can become connected with none of them ever set. -/
theorem c9_connect_marks_connected (opts : ClientOptions) (st : SessionState)
    (outcome : LocalOutcome) (rt : Nat) (h : st.isConnected = false) :
    (onMessage opts st .connect outcome rt).state.isConnected = true ∧
      (onMessage opts st .connect outcome rt).emitted
        = [sendConnectMessage opts] ∧
      (onMessage opts st .connect outcome rt).resolved = true ∧
      (onMessage opts st .connect outcome rt).state.tunnelId = st.tunnelId ∧
      (onMessage opts st .connect outcome rt).state.subdomain = st.subdomain ∧
      (onMessage opts st .connect outcome rt).state.publicUrl
        = st.publicUrl := by
  simp [onMessage, handleMessage, handleConnect, isConnectKind, h]

/-- Witness for C9 at the fresh session state: the session ends up
connected with `tunnelId` still `none`. -/
theorem c9_connect_marks_connected_witness :
    ((⟨false, none, none, none⟩ : SessionState).isConnected = false) ∧
    ((onMessage ⟨"https://tunnl.fit", 3000, some "demo", some "tok", true⟩
        ⟨false, none, none, none⟩ .connect (.otherError "") 0).state.isConnected
        = true ∧
      (onMessage ⟨"https://tunnl.fit", 3000, some "demo", some "tok", true⟩
          ⟨false, none, none, none⟩ .connect (.otherError "") 0).emitted
        = [sendConnectMessage
            ⟨"https://tunnl.fit", 3000, some "demo", some "tok", true⟩] ∧
      (onMessage ⟨"https://tunnl.fit", 3000, some "demo", some "tok", true⟩
          ⟨false, none, none, none⟩ .connect (.otherError "") 0).resolved
        = true ∧
      (onMessage ⟨"https://tunnl.fit", 3000, some "demo", some "tok", true⟩
          ⟨false, none, none, none⟩ .connect (.otherError "") 0).state.tunnelId
        = (⟨false, none, none, none⟩ : SessionState).tunnelId ∧
      (onMessage ⟨"https://tunnl.fit", 3000, some "demo", some "tok", true⟩
          ⟨false, none, none, none⟩ .connect (.otherError "") 0).state.subdomain
        = (⟨false, none, none, none⟩ : SessionState).subdomain ∧
      (onMessage ⟨"https://tunnl.fit", 3000, some "demo", some "tok", true⟩
          ⟨false, none, none, none⟩ .connect (.otherError "") 0).state.publicUrl
        = (⟨false, none, none, none⟩ : SessionState).publicUrl) :=
  ⟨rfl,
    c9_connect_marks_connected
      ⟨"https://tunnl.fit", 3000, some "demo", some "tok", true⟩
      ⟨false, none, none, none⟩ (.otherError "") 0 rfl⟩

/-- C10: when forwarding fails, the `REQUEST_LOG` emitted afterwards never
carries an `errorMessage`: the outer `let errorMessage` of `handleRequest`
is never assigned (the catch block binds a new shadowing
`const errorMessage` for the 502 frame), so the argument passed to
`sendRequestLog` is always `undefined`. -/
theorem c10_failed_request_log_has_no_error_message
    (tunnelId publicUrl : Option String) (localPort : Nat)
    (reqMsg : RequestMessage) (outcome : LocalOutcome) (rt : Nat)
    (emsg : String)
    (h : forwardRequest localPort (toProxyRequest reqMsg) outcome
      = .error emsg) :
    (handleRequest tunnelId publicUrl localPort reqMsg outcome rt).all
        logHasNoErrorMessage = true := by
  simp only [handleRequest, h]
  rw [sendRequestLog]
  split <;> simp [logHasNoErrorMessage]

/-- Witness for C10: a connection-refused forward of the sample request
with the tunnelId set, so the log frame is actually present. -/
theorem c10_failed_request_log_has_no_error_message_witness :
    forwardRequest 3000 (toProxyRequest sampleRequest)
        (.axiosError .ECONNREFUSED "connect ECONNREFUSED 127.0.0.1:3000")
      = .error
        "Cannot connect to local service on port 3000. Is your service running?" ∧
    (handleRequest (some "T1") none 3000 sampleRequest
        (.axiosError .ECONNREFUSED "connect ECONNREFUSED 127.0.0.1:3000")
        7).all logHasNoErrorMessage = true :=
  ⟨rfl,
    c10_failed_request_log_has_no_error_message (some "T1") none 3000
      sampleRequest
      (.axiosError .ECONNREFUSED "connect ECONNREFUSED 127.0.0.1:3000") 7 _
      rfl⟩

end Tunnel
